import Mathlib

/-!
A shallow embedding of the client-side validation logic of
`src/components/SignupForm.tsx`: the real-time password-criteria
evaluator, the overall-validity derivation, the submit-time form
validator, the per-field edit handler, and the submit-button guard.

JS strings are modelled as Lean `String` (a sequence of characters);
JS regular-expression `test` calls are modelled by their matching
semantics over the character sequence.
-/

namespace SignupForm

/-- The JavaScript whitespace class `\s` (also the set removed by
`String.prototype.trim`): tab, LF, VT, FF, CR, space, NBSP, and the
Unicode space separators, line/paragraph separators and BOM. -/
def jsWhitespace (c : Char) : Bool :=
  c.val == 9 || c.val == 10 || c.val == 11 || c.val == 12 || c.val == 13 ||
  c.val == 32 || c.val == 160 || c.val == 0x1680 ||
  (decide (0x2000 ≤ c.val) && decide (c.val ≤ 0x200A)) ||
  c.val == 0x2028 || c.val == 0x2029 ||
  c.val == 0x202F || c.val == 0x205F || c.val == 0x3000 || c.val == 0xFEFF

/-- JavaScript `String.prototype.trim`: strip leading and trailing
`jsWhitespace` characters. -/
def jsTrim (s : String) : String :=
  ⟨((s.data.dropWhile jsWhitespace).reverse.dropWhile jsWhitespace).reverse⟩

/-- The four text fields of the form (`interface FormData`). -/
structure FormData where
  email : String
  username : String
  password : String
  confirmPassword : String
deriving DecidableEq, Repr

/-- `Partial<FormData>` used as the error state: a sparse map from
field name to message, an absent key meaning "no error". -/
structure ErrorState where
  email : Option String
  username : Option String
  password : Option String
  confirmPassword : Option String
deriving DecidableEq, Repr

/-- Field names of `FormData`, used to index edits and errors. -/
inductive Field where
  | email
  | username
  | password
  | confirmPassword
deriving DecidableEq, Repr

/-- Read one field of `FormData` (`formData[name]`). -/
def FormData.get (fd : FormData) : Field → String
  | .email => fd.email
  | .username => fd.username
  | .password => fd.password
  | .confirmPassword => fd.confirmPassword

/-- Functional update of one field (`{ ...prev, [name]: value }`). -/
def FormData.set (fd : FormData) : Field → String → FormData
  | .email, v => { fd with email := v }
  | .username, v => { fd with username := v }
  | .password, v => { fd with password := v }
  | .confirmPassword, v => { fd with confirmPassword := v }

/-- Read one field's error (`errors[name]`). -/
def ErrorState.get (es : ErrorState) : Field → Option String
  | .email => es.email
  | .username => es.username
  | .password => es.password
  | .confirmPassword => es.confirmPassword

/-- Set one field's error to `undefined`
(`{ ...prev, [name]: undefined }`). -/
def ErrorState.clear (es : ErrorState) : Field → ErrorState
  | .email => { es with email := none }
  | .username => { es with username := none }
  | .password => { es with password := none }
  | .confirmPassword => { es with confirmPassword := none }

/-- JavaScript truthiness of a `string | undefined` value: `undefined`
and the empty string are falsy, every other string is truthy. -/
def truthy : Option String → Bool
  | none => false
  | some m => m != ""

/-- The five real-time password criteria (`interface PasswordCriteria`). -/
structure PasswordCriteria where
  minLength : Bool
  hasUppercase : Bool
  hasSymbol : Bool
  hasDigit : Bool
  notSameAsUsername : Bool
deriving DecidableEq, Repr

/-- The character class of the symbol regex
`[!@#$%^&*()_+\-=\[\]{};':"\\|,.<>\/?]` in source order. -/
def symbolChars : List Char :=
  ['!', '@', '#', '$', '%', Char.ofNat 94, '&', '*', '(', ')', '_', '+',
   '-', '=', '[', ']', Char.ofNat 123, Char.ofNat 125, ';', Char.ofNat 39,
   ':', Char.ofNat 34, Char.ofNat 92, '|', ',', '.', '<', '>', '/', '?']

/-- The `passwordCriteria` memo: the five booleans computed from the
current password and username.  `/[A-Z]/`, the symbol class and `/\d/`
are unanchored `test`s, i.e. existence of one matching character. -/
def passwordCriteria (password username : String) : PasswordCriteria :=
  { minLength := decide (password.length ≥ 8)
    hasUppercase := password.data.any fun c => decide ('A' ≤ c) && decide (c ≤ 'Z')
    hasSymbol := password.data.any fun c => symbolChars.contains c
    hasDigit := password.data.any fun c => decide ('0' ≤ c) && decide (c ≤ '9')
    notSameAsUsername :=
      (password != username) && decide (password.length > 0) &&
        decide (username.length > 0) }

/-- The `isPasswordValid` memo: `Object.values(passwordCriteria).every`,
i.e. the conjunction of the five criteria booleans. -/
def isPasswordValid (password username : String) : Bool :=
  let c := passwordCriteria password username
  c.minLength && c.hasUppercase && c.hasSymbol && c.hasDigit &&
    c.notSameAsUsername

/-- One unanchored match of the email regex `\S+@\S+\.\S+` inside the
character list `l`: an index `i` holding a `@` with a non-whitespace
character just before it, a later index `j` holding a `.` with a
non-whitespace character just after it, and at least one character
between them, all non-whitespace. -/
def emailTest (l : List Char) : Bool :=
  (List.range l.length).any fun i =>
    (List.range l.length).any fun j =>
      decide (1 ≤ i) && decide (i + 2 ≤ j) && decide (j + 1 < l.length) &&
      (l.getD i ' ' == '@') && (l.getD j ' ' == '.') &&
      !jsWhitespace (l.getD (i - 1) ' ') &&
      !jsWhitespace (l.getD (j + 1) ' ') &&
      ((List.range l.length).all fun k =>
        decide (k ≤ i) || decide (j ≤ k) || !jsWhitespace (l.getD k ' '))

/-- The submit-time `validateForm` body: the fresh `newErrors` object
built from the current form state. -/
def validateForm (fd : FormData) : ErrorState :=
  { email :=
      if jsTrim fd.email = "" then some "Email is required"
      else if emailTest fd.email.data = false then some "Email is invalid"
      else none
    username :=
      if jsTrim fd.username = "" then some "Username is required"
      else none
    password :=
      if fd.password = "" then some "Password is required"
      else if isPasswordValid fd.password fd.username = false then
        some "Password does not meet all criteria"
      else none
    confirmPassword :=
      if fd.confirmPassword = "" then some "Please confirm your password"
      else if fd.password ≠ fd.confirmPassword then
        some "Passwords do not match"
      else none }

/-- `Object.keys(newErrors).length === 0`: no field has an error. -/
def emptyErrors (es : ErrorState) : Bool :=
  es.email.isNone && es.username.isNone && es.password.isNone &&
    es.confirmPassword.isNone

/-- Running `validateForm` against a previous error state: it builds
`newErrors` from the form alone, stores it with `setErrors(newErrors)`
(a wholesale replacement of `prev`), and returns whether `newErrors`
is empty. -/
def validateFormRun (fd : FormData) (_prev : ErrorState) :
    ErrorState × Bool :=
  let newErrors := validateForm fd
  (newErrors, emptyErrors newErrors)

/-- `handleInputChange`: write `value` into field `name` of the form
state; if that field's current error is truthy, set it to `undefined`;
no other state is touched and no validation runs. -/
def handleInputChange (fd : FormData) (errors : ErrorState)
    (name : Field) (value : String) : FormData × ErrorState :=
  let fd2 := fd.set name value
  let errors2 :=
    if truthy (errors.get name) then errors.clear name else errors
  (fd2, errors2)

/-- The submit button's `disabled` attribute:
`!isPasswordValid || formData.password !== formData.confirmPassword`. -/
def submitDisabled (fd : FormData) : Bool :=
  !isPasswordValid fd.password fd.username ||
    fd.password != fd.confirmPassword

/-- A sample form state for the concrete witnesses. -/
def sampleForm : FormData := ⟨"a", "b", "c", "d"⟩

/-- A sample error state holding email and username errors. -/
def sampleErrors : ErrorState :=
  ⟨some "Email is invalid", some "Username is required", none, none⟩

/-- The error state with no key set. -/
def noErrors : ErrorState := ⟨none, none, none, none⟩

/-- A form state whose password meets every criterion and matches its
confirmation. -/
def validForm : FormData := ⟨"a@b.com", "alice", "Abcdef1!", "Abcdef1!"⟩

/-- A string has length zero exactly when it is the empty string. -/
lemma length_eq_zero_iff (s : String) : s.length = 0 ↔ s = "" := by
  rw [String.ext_iff]
  cases s with
  | mk l => simp [String.length]

/-- C1: the criteria evaluator returns exactly the five booleans of the
spec's table: `minLength` iff the password is at least 8 characters,
`hasUppercase` iff it has a character in `A`–`Z`, `hasSymbol` iff it has
a character of the fixed punctuation set, `hasDigit` iff it has a
decimal digit, and `notSameAsUsername` iff the password differs from
the username and both are non-empty. -/
theorem passwordCriteria_matches_spec (p u : String) :
    ((passwordCriteria p u).minLength = true ↔ p.length ≥ 8) ∧
    ((passwordCriteria p u).hasUppercase = true ↔
      ∃ c ∈ p.data, Char.ofNat 65 ≤ c ∧ c ≤ Char.ofNat 90) ∧
    ((passwordCriteria p u).hasSymbol = true ↔ ∃ c ∈ p.data, c ∈ symbolChars) ∧
    ((passwordCriteria p u).hasDigit = true ↔
      ∃ c ∈ p.data, Char.ofNat 48 ≤ c ∧ c ≤ Char.ofNat 57) ∧
    ((passwordCriteria p u).notSameAsUsername = true ↔
      (p ≠ u ∧ p ≠ "" ∧ u ≠ "")) := by
  refine ⟨?_, ?_, ?_, ?_, ?_⟩
  · simp [passwordCriteria]
  · simp only [passwordCriteria, List.any_eq_true, Bool.and_eq_true,
      decide_eq_true_eq]
  · simp only [passwordCriteria, List.any_eq_true]
    constructor
    · rintro ⟨c, hc, h⟩
      exact ⟨c, hc, List.elem_iff.mp h⟩
    · rintro ⟨c, hc, h⟩
      exact ⟨c, hc, List.elem_iff.mpr h⟩
  · simp only [passwordCriteria, List.any_eq_true, Bool.and_eq_true,
      decide_eq_true_eq]
  · simp only [passwordCriteria, Bool.and_eq_true, bne_iff_ne,
      decide_eq_true_eq, gt_iff_lt, Nat.pos_iff_ne_zero, ne_eq,
      length_eq_zero_iff]
    tauto

/-- C3: the `isPasswordValid` derivation equals the conjunction of the
five criteria booleans and of nothing else. -/
theorem isPasswordValid_is_and_of_criteria (p u : String) :
    isPasswordValid p u =
      ((passwordCriteria p u).minLength &&
       (passwordCriteria p u).hasUppercase &&
       (passwordCriteria p u).hasSymbol &&
       (passwordCriteria p u).hasDigit &&
       (passwordCriteria p u).notSameAsUsername) := rfl

/-- C4: the submit-time validator reports the form submittable exactly
when the error state it produced is empty, and it replaces the previous
error state wholesale: its result does not depend on the previous
error state at all. -/
theorem validateFormRun_submittable_iff_empty (fd : FormData)
    (prev alt : ErrorState) :
    ((validateFormRun fd prev).2 = true ↔
      emptyErrors (validateFormRun fd prev).1 = true) ∧
    (validateFormRun fd prev).1 = validateForm fd ∧
    validateFormRun fd prev = validateFormRun fd alt :=
  ⟨Iff.rfl, rfl, rfl⟩

/-- C6: the submit button is disabled exactly when overall password
validity is false or password and confirmation differ. -/
theorem submitDisabled_iff (fd : FormData) :
    submitDisabled fd = true ↔
      (isPasswordValid fd.password fd.username = false ∨
        fd.password ≠ fd.confirmPassword) := by
  simp [submitDisabled]

/-- C8: the submit-time validator is idempotent: a second run on the
same form state, fed the error state the first run produced, returns
the identical error state and verdict. -/
theorem validateFormRun_idempotent (fd : FormData) (prev : ErrorState) :
    validateFormRun fd (validateFormRun fd prev).1 = validateFormRun fd prev :=
  rfl

/-- C9 counterexample: the claim instantiated at the criterion
`minLength` — whose underlying input is the password — asserts that any
two runs agreeing on the username agree on the other four booleans;
this is false: with the username fixed at `"x"`, changing the password
from `"abcdefgh"` to `"1"` flips `hasDigit` as well. -/
theorem criteriaIndependence_counterexample :
    ¬ (∀ p q u : String,
        ((passwordCriteria p u).hasUppercase =
          (passwordCriteria q u).hasUppercase) ∧
        ((passwordCriteria p u).hasSymbol =
          (passwordCriteria q u).hasSymbol) ∧
        ((passwordCriteria p u).hasDigit =
          (passwordCriteria q u).hasDigit) ∧
        ((passwordCriteria p u).notSameAsUsername =
          (passwordCriteria q u).notSameAsUsername)) := by
  intro h
  have hd := (h "abcdefgh" "1" "x").2.2.1
  exact absurd hd (by decide)

/-- C9 amended: only `notSameAsUsername` reads the username, so a
change of the username alone can flip only `notSameAsUsername`: the
four password-only criteria are unchanged under any change of the
username.  (A password change may flip any of the five.) -/
theorem criteria_username_independence (p u v : String) :
    ((passwordCriteria p u).minLength = (passwordCriteria p v).minLength) ∧
    ((passwordCriteria p u).hasUppercase =
      (passwordCriteria p v).hasUppercase) ∧
    ((passwordCriteria p u).hasSymbol = (passwordCriteria p v).hasSymbol) ∧
    ((passwordCriteria p u).hasDigit = (passwordCriteria p v).hasDigit) :=
  ⟨rfl, rfl, rfl, rfl⟩

/-- C2: the validator's email error is "Email is required" exactly when
the email is blank after trimming; otherwise it is "Email is invalid"
exactly when the email fails the loose pattern `\S+@\S+\.\S+` (a `@`
and a later `.`, each flanked by non-whitespace); an email passing the
pattern gets no email error. -/
theorem validateForm_email_spec (fd : FormData) :
    ((validateForm fd).email = some "Email is required" ↔
      jsTrim fd.email = "") ∧
    ((validateForm fd).email = some "Email is invalid" ↔
      (jsTrim fd.email ≠ "" ∧ emailTest fd.email.data = false)) ∧
    ((validateForm fd).email = none ↔
      (jsTrim fd.email ≠ "" ∧ emailTest fd.email.data = true)) := by
  by_cases h1 : jsTrim fd.email = ""
  · simp [validateForm, h1]
  · by_cases h2 : emailTest fd.email.data = true
    · simp [validateForm, h1, h2]
    · simp only [Bool.not_eq_true] at h2
      simp [validateForm, h1, h2]

/-- C5: a single-field edit writes the new value into exactly that
field of the form state, leaves every other field unchanged, leaves
every other field's error unchanged, clears the edited field's error
when it has one, and runs no validation (when the edited field has no
error, the error state is untouched entirely). -/
theorem handleInputChange_frame (fd : FormData) (es : ErrorState)
    (f g : Field) (v : String) (hg : g ≠ f) :
    ((handleInputChange fd es f v).1.get f = v) ∧
    ((handleInputChange fd es f v).1.get g = fd.get g) ∧
    ((handleInputChange fd es f v).2.get g = es.get g) ∧
    (truthy (es.get f) = true →
      (handleInputChange fd es f v).2.get f = none) ∧
    (truthy (es.get f) = false →
      (handleInputChange fd es f v).2 = es) := by
  refine ⟨?_, ?_, ?_, ?_, ?_⟩
  · cases f <;> rfl
  · cases f <;> cases g <;>
      simp_all [handleInputChange, FormData.set, FormData.get]
  · by_cases h : truthy (es.get f) = true
    · cases f <;> cases g <;>
        simp_all [handleInputChange, ErrorState.get, ErrorState.clear]
    · simp only [Bool.not_eq_true] at h
      simp [handleInputChange, h]
  · intro h
    cases f <;> simp_all [handleInputChange, ErrorState.get, ErrorState.clear]
  · intro h
    simp [handleInputChange, h]

/-- C5 witness: the frame property at a concrete state — editing the
email field writes the value, clears the email error, and touches
neither the username field nor the username error. -/
theorem handleInputChange_frame_witness :
    Field.username ≠ Field.email ∧
    (((handleInputChange sampleForm sampleErrors Field.email "z").1.get
        Field.email = "z") ∧
     ((handleInputChange sampleForm sampleErrors Field.email "z").1.get
        Field.username = sampleForm.get Field.username) ∧
     ((handleInputChange sampleForm sampleErrors Field.email "z").2.get
        Field.username = sampleErrors.get Field.username) ∧
     (truthy (sampleErrors.get Field.email) = true →
       (handleInputChange sampleForm sampleErrors Field.email "z").2.get
         Field.email = none) ∧
     (truthy (sampleErrors.get Field.email) = false →
       (handleInputChange sampleForm sampleErrors Field.email "z").2 =
         sampleErrors)) :=
  ⟨by decide,
   handleInputChange_frame sampleForm sampleErrors Field.email Field.username
     "z" (by decide)⟩

/-- C7: whenever the submit button is disabled, the submit-time
validator itself rejects the form (the produced error state is
non-empty), so the UI guard never suppresses a submission the
validator would have accepted. -/
theorem submitDisabled_not_submittable (fd : FormData) (prev : ErrorState)
    (h : submitDisabled fd = true) :
    (validateFormRun fd prev).2 = false := by
  have h2 : isPasswordValid fd.password fd.username = false ∨
      fd.password ≠ fd.confirmPassword := by
    simpa [submitDisabled] using h
  show emptyErrors (validateForm fd) = false
  rcases h2 with hv | hne
  · have hp : (validateForm fd).password ≠ none := by
      by_cases hp0 : fd.password = ""
      · simp [validateForm, hp0]
      · simp [validateForm, hp0, hv]
    rw [Bool.eq_false_iff]
    intro hE
    simp only [emptyErrors, Bool.and_eq_true, Option.isNone_iff_eq_none] at hE
    exact hp hE.1.2
  · have hc : (validateForm fd).confirmPassword ≠ none := by
      by_cases hc0 : fd.confirmPassword = ""
      · simp [validateForm, hc0]
      · simp [validateForm, hc0, hne]
    rw [Bool.eq_false_iff]
    intro hE
    simp only [emptyErrors, Bool.and_eq_true, Option.isNone_iff_eq_none] at hE
    exact hc hE.2

/-- C7 witness: the all-empty form disables the button, and the
validator indeed reports it not submittable. -/
theorem submitDisabled_not_submittable_witness :
    submitDisabled ⟨"", "", "", ""⟩ = true ∧
    (validateFormRun ⟨"", "", "", ""⟩ noErrors).2 = false :=
  ⟨by decide, submitDisabled_not_submittable ⟨"", "", "", ""⟩ noErrors
    (by decide)⟩

/-- C10: when the submit button is enabled (overall validity holds and
the confirmation matches), the validator's password and confirmPassword
branches are unreachable: both fields of the produced error state are
`none`, so only email and/or username errors can reject the form. -/
theorem enabled_no_password_errors (fd : FormData)
    (h : submitDisabled fd = false) :
    (validateForm fd).password = none ∧
    (validateForm fd).confirmPassword = none := by
  have h2 : isPasswordValid fd.password fd.username = true ∧
      fd.password = fd.confirmPassword := by
    simpa [submitDisabled] using h
  obtain ⟨hv, hpc⟩ := h2
  have hmin : (passwordCriteria fd.password fd.username).minLength = true := by
    simp only [isPasswordValid, Bool.and_eq_true] at hv
    exact hv.1.1.1.1
  have hp : fd.password ≠ "" := by
    intro h0
    rw [h0] at hmin
    simp [passwordCriteria] at hmin
  refine ⟨?_, ?_⟩
  · simp [validateForm, hp, hv]
  · have hc : fd.confirmPassword ≠ "" := hpc ▸ hp
    simp [validateForm, hc, hpc]

/-- C10 witness: a fully valid concrete form enables the button, and
the validator assigns it no password or confirmPassword error. -/
theorem enabled_no_password_errors_witness :
    submitDisabled validForm = false ∧
    ((validateForm validForm).password = none ∧
     (validateForm validForm).confirmPassword = none) :=
  ⟨by decide, enabled_no_password_errors validForm (by decide)⟩

end SignupForm
